import Mathlib

/-!
# Verification of the Stratos client-side tracker

Shallow embedding of the tracker / session / delivery-queue logic of the
`framehaus-starter-template` repository, together with proofs of the spec's
claims about it.

Embedded source files:
* `src/lib/session.ts` — visitor / session identity store (`Session` namespace);
* the consent-aware `StratosTracker` (`stratos-tracker` module with the GDPR
  consent gate) — `Tracker` namespace;
* the event-queue tracker appended to `src/lib/brand.ts`
  (`processEventQueue`) — `Queue` namespace.

Conventions: wall-clock times are naturals (milliseconds since epoch);
JavaScript `Math.floor((a - b) / 1000)` on non-negative differences is `Nat`
subtraction followed by `Nat` division (JS negative differences compare the
same way as truncated subtraction in every guard modelled here); network
transmissions are values of an explicit `Request` type rather than real I/O,
and fallible browser primitives are driven by explicit outcome parameters.
-/

-- ========================================
-- Session store (src/lib/session.ts)
-- ========================================

namespace Session

/-- `SessionData` record persisted in `localStorage` (`src/lib/session.ts`).
Timestamps are ISO strings in the source, parsed back to epoch milliseconds
before every comparison; they are embedded directly as milliseconds. -/
structure SessionData where
  session_id : String
  visitor_id : String
  created_at : Nat
  last_activity_at : Nat
  page_views : Nat
  deriving Repr, DecidableEq

/-- `SESSION_TIMEOUT_MS = 30 * 60 * 1000` (30 minutes). -/
def SESSION_TIMEOUT_MS : Nat := 30 * 60 * 1000

/-- `isSessionExpired`: expired when `now - last_activity_at > SESSION_TIMEOUT_MS`.
(A clock running backwards gives a negative JS difference, which is not
greater than the timeout; truncated `Nat` subtraction agrees.) -/
def isSessionExpired (s : SessionData) (now : Nat) : Bool :=
  now - s.last_activity_at > SESSION_TIMEOUT_MS

/-- `createNewSession`: fresh session id, `created_at = last_activity_at = now`,
`page_views = 0`.  The fresh UUID and the visitor id (the source calls
`generateUUID()` / `getVisitorId()`) are passed in explicitly. -/
def createNewSession (now : Nat) (freshId visitorId : String) : SessionData :=
  { session_id := freshId
    visitor_id := visitorId
    created_at := now
    last_activity_at := now
    page_views := 0 }

/-- `updateSessionActivity`: bump `last_activity_at`, increment `page_views`. -/
def updateSessionActivity (s : SessionData) (now : Nat) : SessionData :=
  { s with last_activity_at := now, page_views := s.page_views + 1 }

/-- `getSessionId` acting on the stored session: returns the id handed to the
caller together with the session that `saveSession` persists. -/
def getSessionId (stored : Option SessionData) (now : Nat)
    (freshId visitorId : String) : String × SessionData :=
  match stored with
  | none =>
      let s := createNewSession now freshId visitorId
      (s.session_id, s)
  | some s =>
      if isSessionExpired s now then
        let s' := createNewSession now freshId visitorId
        (s'.session_id, s')
      else
        let s' := updateSessionActivity s now
        (s.session_id, s')

/-- A sequence of `getSessionId()` calls starting from a stored session:
each element of `calls` is the wall-clock time of the call paired with the
fresh UUID that would be used were a new session created.  Returns the
`(returned id, stored session afterwards)` trace. -/
def sessionTrace (s : SessionData) : List (Nat × String) → List (String × SessionData)
  | [] => []
  | (t, f) :: rest =>
      let (id, s') := getSessionId (some s) t f s.visitor_id
      (id, s') :: sessionTrace s' rest

-- ========================================
-- Visitor id with fallible storage (getVisitorId)
-- ========================================

/-- The slice of `localStorage` that `getVisitorId` touches, together with
flags saying whether `getItem` / `setItem` throw (storage unavailable,
quota exceeded, …). -/
structure Store where
  visitor : Option String
  readFails : Bool
  writeFails : Bool
  deriving Repr, DecidableEq

/-- `localStorage.getItem(STORAGE_KEYS.VISITOR)`: throws when storage is
unavailable, otherwise yields the stored value (or `null`). -/
def getItemVisitor (st : Store) : Except Unit (Option String) :=
  if st.readFails then .error () else .ok st.visitor

/-- `localStorage.setItem(STORAGE_KEYS.VISITOR, v)`: throws when the write
fails, otherwise persists the value. -/
def setItemVisitor (st : Store) (v : String) : Except Unit Store :=
  if st.writeFails then .error () else .ok { st with visitor := some v }

/-- Body of the `try` block of `getVisitorId`: read the stored id; if absent,
generate (`fresh1`) and persist it. -/
def getVisitorIdAttempt (st : Store) (fresh1 : String) :
    Except Unit (String × Store) := do
  let v ← getItemVisitor st
  match v with
  | some vid => pure (vid, st)
  | none =>
      let st' ← setItemVisitor st fresh1
      pure (fresh1, st')

/-- `getVisitorId`: the `catch` branch returns a temporary freshly generated
UUID (`fresh2`, a second `generateUUID()` call in the source) and persists
nothing.  Total by construction — no error reaches the caller. -/
def getVisitorId (st : Store) (fresh1 fresh2 : String) : String × Store :=
  match getVisitorIdAttempt st fresh1 with
  | .ok r => r
  | .error _ => (fresh2, st)

end Session

-- ========================================
-- Consent-aware StratosTracker (stratos-tracker module)
-- ========================================

namespace Tracker

/-- `TrackerConfig` after the constructor fills the defaults
(`trackingEnabled := true` unless overridden; `debug` only affects logging
and is omitted). -/
structure Config where
  apiUrl : String
  apiKey : String
  trackingEnabled : Bool
  deriving Repr, DecidableEq

/-- One outgoing transmission to the collector.  The URL is kept structural:
`path` is the part before `?` and `queryParams` the query string pairs (the
source percent-encodes values with `encodeURIComponent` when serialising,
which the structural view does not need to replay).  `isBeacon` records
whether `navigator.sendBeacon` or `fetch` carries the request. -/
structure Request where
  path : String
  queryParams : List (String × String)
  apiKeyHeader : Option String
  contentType : String
  isBeacon : Bool
  eventType : String
  deriving Repr, DecidableEq

/-- `sendEvent`: `POST {apiUrl}/functions/v1/track-event` via `fetch` with
`Content-Type: application/json` and the API key in the `x-api-key` header. -/
def sendEventReq (cfg : Config) (eventType : String) : Request :=
  { path := cfg.apiUrl ++ "/functions/v1/track-event"
    queryParams := []
    apiKeyHeader := some cfg.apiKey
    contentType := "application/json"
    isBeacon := false
    eventType := eventType }

/-- `sendBeacon`: API key as the `api_key` query parameter (the beacon
primitive cannot set headers), body a `text/plain`-typed blob (avoiding the
CORS pre-flight that `application/json` would trigger); when
`navigator.sendBeacon` is unavailable, falls back to `sendEvent`. -/
def sendBeaconReq (cfg : Config) (beaconAvailable : Bool) (eventType : String) :
    Request :=
  if beaconAvailable then
    { path := cfg.apiUrl ++ "/functions/v1/track-event"
      queryParams := [("api_key", cfg.apiKey)]
      apiKeyHeader := none
      contentType := "text/plain"
      isBeacon := true
      eventType := eventType }
  else
    sendEventReq cfg eventType

/-- Mutable instance fields of the consent-aware `StratosTracker` that govern
collection decisions (timer fields are epoch milliseconds, `0` = unset, as
in the source's truthiness checks). -/
structure State where
  config : Config
  consentGiven : Bool
  isInitialized : Bool
  pageLoadTime : Nat
  propertyViewStartTime : Nat
  blogViewStartTime : Nat
  maxScrollDepth : Nat
  deriving Repr, DecidableEq

/-- `canTrack()`: tracking enabled *and* consent given. -/
def canTrack (s : State) : Bool :=
  s.config.trackingEnabled && s.consentGiven

/-- `trackEvent`: gated on `canTrack()`, then one queued (`fetch`) send. -/
def trackEvent (s : State) (eventType : String) : List Request :=
  if !canTrack s then [] else [sendEventReq s.config eventType]

/-- `trackPageView`: gated on `canTrack()`, then `trackEvent('page_view', …)`. -/
def trackPageView (s : State) : List Request :=
  if !canTrack s then [] else trackEvent s "page_view"

/-- `trackPropertyView`: gated on `canTrack()`; records the view start time
then emits a `property_view` event. -/
def trackPropertyView (s : State) (now : Nat) : State × List Request :=
  if !canTrack s then (s, [])
  else
    let s' := { s with propertyViewStartTime := now }
    (s', trackEvent s' "property_view")

/-- `trackSearch`: goes straight to `sendBeacon` — the source contains no
`canTrack()` (nor any consent) check on this path. -/
def trackSearch (s : State) (beaconAvailable : Bool) : List Request :=
  [sendBeaconReq s.config beaconAvailable "search"]

/-- `trackPageExit`: guards on `trackingEnabled` and a set `pageLoadTime`
(never on consent), suppresses below 3 seconds, then sends a beacon. -/
def trackPageExit (s : State) (now : Nat) (beaconAvailable : Bool) : List Request :=
  if !s.config.trackingEnabled || s.pageLoadTime == 0 then []
  else
    let timeOnPage := (now - s.pageLoadTime) / 1000
    if timeOnPage < 3 then []
    else [sendBeaconReq s.config beaconAvailable "page_exit"]

/-- `trackPropertyDuration`: guards on `trackingEnabled` and a set view start
time, suppresses below 3 seconds, then sends a `property_view` duration
beacon.  The state is returned unchanged — the source neither clears
`propertyViewStartTime` nor records that a report was already sent. -/
def trackPropertyDuration (s : State) (now : Nat) (beaconAvailable : Bool) :
    State × List Request :=
  if !s.config.trackingEnabled || s.propertyViewStartTime == 0 then (s, [])
  else
    let duration := (now - s.propertyViewStartTime) / 1000
    if duration < 3 then (s, [])
    else (s, [sendBeaconReq s.config beaconAvailable "property_view"])

/-- `trackBlogDuration`: as `trackPropertyDuration` but with a 5-second
threshold and a `blog_read_time` beacon. -/
def trackBlogDuration (s : State) (now : Nat) (beaconAvailable : Bool) :
    State × List Request :=
  if !s.config.trackingEnabled || s.blogViewStartTime == 0 then (s, [])
  else
    let duration := (now - s.blogViewStartTime) / 1000
    if duration < 5 then (s, [])
    else (s, [sendBeaconReq s.config beaconAvailable "blog_read_time"])

/-- The teardown listeners registered by `setupPropertyDurationTracking`
(`beforeunload`, `pagehide`, `visibilitychange→hidden`) all run the same
`trackDuration` closure; firing the signals at the given times runs
`trackPropertyDuration` once per signal on the then-current state. -/
def propertyDurationSignals (s : State) (beaconAvailable : Bool) :
    List Nat → State × List Request
  | [] => (s, [])
  | t :: rest =>
      let (s', reqs) := trackPropertyDuration s t beaconAvailable
      let (sF, more) := propertyDurationSignals s' beaconAvailable rest
      (sF, reqs ++ more)

/-- Same for the listeners registered by `setupBlogDurationTracking`. -/
def blogDurationSignals (s : State) (beaconAvailable : Bool) :
    List Nat → State × List Request
  | [] => (s, [])
  | t :: rest =>
      let (s', reqs) := trackBlogDuration s t beaconAvailable
      let (sF, more) := blogDurationSignals s' beaconAvailable rest
      (sF, reqs ++ more)

-- ========================================
-- Scroll-depth tracking (setupScrollDepthTracking)
-- ========================================

/-- The milestone list `[25, 50, 75, 100]`. -/
def milestones : List Nat := [25, 50, 75, 100]

/-- One run of the `trackScroll` closure at scroll position `p` (percent),
with running maximum `maxD` (`this.maxScrollDepth`): fires the *first*
milestone `m` with `p ≥ m` and `maxD < m`, and whenever `p > maxD` advances
the maximum to `p`.  Returns `(new maxScrollDepth, fired milestone?)`. -/
def scrollStep (maxD p : Nat) : Nat × Option Nat :=
  match milestones.find? (fun m => decide (p ≥ m) && decide (maxD < m)) with
  | some m => if p > maxD then (p, some m) else (maxD, none)
  | none => if p > maxD then (p, none) else (maxD, none)

/-- A sequence of scroll events at the given positions; returns the final
maximum and the list of fired milestones in firing order. -/
def scrollRun (maxD : Nat) : List Nat → Nat × List Nat
  | [] => (maxD, [])
  | p :: ps =>
      let (d', f) := scrollStep maxD p
      let (dF, fired) := scrollRun d' ps
      (dF, (match f with | some m => [m] | none => []) ++ fired)

-- ========================================
-- toggleFavourite
-- ========================================

/-- Outcome of the `toggle-favourite` POST: the response resolved OK carrying
the server's `is_favourited` field, resolved non-2xx (`!response.ok`), or
the promise rejected (network error, caught by the `catch` block). -/
inductive PostOutcome where
  | ok (is_favourited : Bool)
  | httpError
  | netError
  deriving Repr, DecidableEq

/-- `toggleFavourite(propertyId, source)` given the current favourite state
`current` (the awaited `isFavourited(propertyId)`, which never throws — its
callees catch internally) and the POST outcome.  Returns
`(returned value, action field of the POST body, analytics events)`:
* not allowed to track → `false`, no POST;
* POST ok → the server's `is_favourited`, plus a
  `property_favourited` / `property_unfavourited` analytics event;
* non-2xx → the previously fetched `current` state;
* thrown network error → the `catch` block returns `false`. -/
def toggleFavourite (s : State) (current : Bool) (outcome : PostOutcome) :
    Bool × Option String × List Request :=
  if !canTrack s then (false, none, [])
  else
    let action := if current then "unfavourite" else "favourite"
    match outcome with
    | .ok b =>
        (b, some action,
          trackEvent s
            (if action = "favourite" then "property_favourited"
             else "property_unfavourited"))
    | .httpError => (current, some action, [])
    | .netError => (false, some action, [])

end Tracker

-- ========================================
-- Event queue with retry (brand.ts, processEventQueue)
-- ========================================

namespace Queue

/-- Outcome of one `fetch` attempt in the `processEventQueue` drain loop of
the queue-based tracker in `brand.ts`: the promise resolves with a 2xx
response, resolves with a non-2xx response, or rejects (network error). -/
inductive Transmit where
  | resolved2xx
  | resolvedNon2xx
  | rejected
  deriving Repr, DecidableEq

/-- Whether the attempt's promise resolves at all — the only distinction the
drain loop can act on, because it `await`s the `fetch` without ever reading
`response.ok`: only a rejection reaches the `catch` block. -/
def resolves : Transmit → Bool
  | .rejected => false
  | _ => true

/-- One run of the drain loop.  `oracle k` is the outcome of the `k`-th
transmission attempt (globally numbered).  The shifted entry is removed and
the loop continues whenever the attempt resolves — 2xx or non-2xx alike;
only on a rejection is the entry `unshift`ed back to the front and the
loop stopped by `break`.  Returns `(attempt log in order, remaining queue,
next attempt number)`. -/
def drain (oracle : Nat → Transmit) : List α → Nat → List (α × Transmit) × List α × Nat
  | [], k => ([], [], k)
  | e :: q, k =>
      if resolves (oracle k) then
        let (as, r, k') := drain oracle q (k + 1)
        ((e, oracle k) :: as, r, k')
      else
        ([(e, oracle k)], e :: q, k + 1)

/-- The events an attempt log successfully lands at the collector: those
whose attempt resolved with a 2xx response. -/
def recorded (attempts : List (α × Transmit)) : List α :=
  (attempts.filter (fun a => decide (a.2 = Transmit.resolved2xx))).map Prod.fst

end Queue

-- ========================================
-- Consent transitions and data purge (setConsent / consent listener)
-- ========================================

namespace ConsentTracker

/-- The tracking data held in `localStorage`: the stored session record and
the visitor id (storage assumed available on this path). -/
structure Store where
  session : Option Session.SessionData
  visitor : Option String
  deriving Repr, DecidableEq

/-- Modelled from the spec: `clearAllTrackingData` is imported by the
consent-aware tracker from `./session`, but no source file defines it; per
§4.1 of the spec, `clearAll()` "removes both VisitorIdentity and Session
from storage". -/
def clearAllTrackingData (_st : Store) : Store :=
  { session := none, visitor := none }

/-- `initSession()` → `getSession()` on a working storage: ensure a visitor
id exists, then create the session if absent or expired, else bump its
activity. -/
def initSessionStore (st : Store) (now : Nat) (freshS freshV : String) : Store :=
  let visitorId := st.visitor.getD freshV
  let st := { st with visitor := some visitorId }
  match st.session with
  | none => { st with session := some (Session.createNewSession now freshS visitorId) }
  | some s =>
      if Session.isSessionExpired s now then
        { st with session := some (Session.createNewSession now freshS visitorId) }
      else
        { st with session := some (Session.updateSessionActivity s now) }

/-- The consent-relevant part of the tracker instance: its stored data, the
`consentGiven` flag and the `isInitialized` flag.  (`init()` additionally
stamps timer fields and registers listeners; neither affects the purge
behaviour modelled here.) -/
structure CState where
  store : Store
  consentGiven : Bool
  isInitialized : Bool
  deriving Repr, DecidableEq

/-- `init()`: a no-op without consent or when already initialized, otherwise
marks the tracker initialized. -/
def init (s : CState) : CState :=
  if !s.consentGiven then s
  else if s.isInitialized then s
  else { s with isInitialized := true }

/-- `setConsent(hasConsent)` (manual override): on a fresh grant runs
`initSession()` and `init()`; on *any* `setConsent(false)` — whatever the
previous state — runs `clearAllTrackingData()` and clears `isInitialized`. -/
def setConsent (s : CState) (hasConsent : Bool) (now : Nat)
    (freshS freshV : String) : CState :=
  let previousConsent := s.consentGiven
  let s := { s with consentGiven := hasConsent }
  if hasConsent && !previousConsent then
    init { s with store := initSessionStore s.store now freshS freshV }
  else if !hasConsent then
    { s with store := clearAllTrackingData s.store, isInitialized := false }
  else s

/-- The `cookieConsentUpdated` listener: `analytics` is the broadcast
`consent?.analytics === true`.  Grants initialize (plus an immediate page
view, not needed here); the purge runs only on an actual granted →
not-granted transition. -/
def onConsentUpdated (s : CState) (analytics : Bool) (now : Nat)
    (freshS freshV : String) : CState :=
  let previousConsent := s.consentGiven
  let s := { s with consentGiven := analytics }
  if analytics && !previousConsent then
    init { s with store := initSessionStore s.store now freshS freshV }
  else if !analytics && previousConsent then
    { s with store := clearAllTrackingData s.store, isInitialized := false }
  else s

end ConsentTracker

-- ========================================
-- Claims
-- ========================================

/-- Everything a drain removes from the queue (the events of the resolving
attempts, 2xx or not), followed by what it leaves queued, is exactly the
original queue in order: the loop removes from the front and only on a
rejection puts the failed entry back at the front. -/
theorem Queue.drain_removed_append_remaining (oracle : Nat → Queue.Transmit)
    (q : List α) (k : Nat) :
    ((Queue.drain oracle q k).1.filter (fun a => Queue.resolves a.2)).map Prod.fst
        ++ (Queue.drain oracle q k).2.1 = q := by
  induction q generalizing k with
  | nil => simp [Queue.drain]
  | cons e q ih =>
    by_cases h : Queue.resolves (oracle k) = true
    · simp [Queue.drain, h, ih (k + 1)]
    · simp [Queue.drain, h]

/-- C2 counterexample: events `1, 2, 3` enqueued in order; the collector
answers attempt 0 (event 1) with a non-2xx response — a transmission
failure per the claim — and every later attempt with 2xx.  The drain loop
never reads `response.ok`, so it removes event 1 anyway and keeps going:
nothing is re-inserted at the front, draining does not stop, the queue
empties in one drain, and the collector records event 1 zero times rather
than exactly once. -/
theorem c2_counterexample :
    Queue.drain
        (fun k => if k == 0 then Queue.Transmit.resolvedNon2xx
          else Queue.Transmit.resolved2xx) [1, 2, 3] 0 =
      ([(1, Queue.Transmit.resolvedNon2xx), (2, Queue.Transmit.resolved2xx),
        (3, Queue.Transmit.resolved2xx)], [], 3) ∧
    Queue.recorded (Queue.drain
        (fun k => if k == 0 then Queue.Transmit.resolvedNon2xx
          else Queue.Transmit.resolved2xx) [1, 2, 3] 0).1 = [2, 3] ∧
    ¬ (Queue.recorded (Queue.drain
        (fun k => if k == 0 then Queue.Transmit.resolvedNon2xx
          else Queue.Transmit.resolved2xx) [1, 2, 3] 0).1).count 1 = 1 := by
  decide

/-- C2 as amended: queued delivery is FIFO, with retry only on *rejected*
transmissions.  Each drain removes from the front, in order, exactly the
events whose attempt resolved — a resolved non-2xx response is treated
like success: the entry is removed, never re-inserted, never retried — and
only a rejected attempt (network error reaching the `catch` block)
re-inserts the failed entry at the front and stops draining until
restarted.  For events `1, 2, 3` enqueued in order with attempts 0
(event 1) and 2 (event 2) rejected once and every other attempt resolving
2xx, three successive drains land the events at the collector in order
`1, 2, 3` exactly once each, leaving an empty queue. -/
theorem c2_queue_fifo_retry_on_rejection :
    (∀ (oracle : Nat → Queue.Transmit) (q : List Nat) (k : Nat),
        ((Queue.drain oracle q k).1.filter (fun a => Queue.resolves a.2)).map Prod.fst
          ++ (Queue.drain oracle q k).2.1 = q) ∧
    (∀ (oracle : Nat → Queue.Transmit) (e : Nat) (q : List Nat) (k : Nat),
        Queue.resolves (oracle k) = false →
        Queue.drain oracle (e :: q) k = ([(e, oracle k)], e :: q, k + 1)) ∧
    (∀ (oracle : Nat → Queue.Transmit) (e : Nat) (q : List Nat) (k : Nat),
        Queue.resolves (oracle k) = true →
        (Queue.drain oracle (e :: q) k).1 =
          (e, oracle k) :: (Queue.drain oracle q (k + 1)).1 ∧
        (Queue.drain oracle (e :: q) k).2 = (Queue.drain oracle q (k + 1)).2) ∧
    (Queue.drain
        (fun k => if k == 0 || k == 2 then Queue.Transmit.rejected
          else Queue.Transmit.resolved2xx) [1, 2, 3] 0 =
        ([(1, Queue.Transmit.rejected)], [1, 2, 3], 1) ∧
      Queue.drain
        (fun k => if k == 0 || k == 2 then Queue.Transmit.rejected
          else Queue.Transmit.resolved2xx) [1, 2, 3] 1 =
        ([(1, Queue.Transmit.resolved2xx), (2, Queue.Transmit.rejected)],
          [2, 3], 3) ∧
      Queue.drain
        (fun k => if k == 0 || k == 2 then Queue.Transmit.rejected
          else Queue.Transmit.resolved2xx) [2, 3] 3 =
        ([(2, Queue.Transmit.resolved2xx), (3, Queue.Transmit.resolved2xx)],
          [], 5) ∧
      Queue.recorded
        ((Queue.drain
            (fun k => if k == 0 || k == 2 then Queue.Transmit.rejected
              else Queue.Transmit.resolved2xx) [1, 2, 3] 0).1 ++
          (Queue.drain
            (fun k => if k == 0 || k == 2 then Queue.Transmit.rejected
              else Queue.Transmit.resolved2xx) [1, 2, 3] 1).1 ++
          (Queue.drain
            (fun k => if k == 0 || k == 2 then Queue.Transmit.rejected
              else Queue.Transmit.resolved2xx) [2, 3] 3).1) = [1, 2, 3]) := by
  refine ⟨fun oracle q k => Queue.drain_removed_append_remaining oracle q k,
    ?_, ?_, by decide⟩
  · intro oracle e q k h
    simp [Queue.drain, h]
  · intro oracle e q k h
    constructor <;> simp [Queue.drain, h]

/-- Witness for C2 (amended): a rejected first attempt re-inserts the entry
at the front and stops the drain, while a resolved non-2xx first attempt
removes the entry for good and the drain runs on into the tail. -/
theorem c2_witness :
    Queue.drain (fun _ => Queue.Transmit.rejected) [7, 8] 0 =
      ([(7, Queue.Transmit.rejected)], [7, 8], 1) ∧
    (Queue.drain (fun _ => Queue.Transmit.resolvedNon2xx) [7, 8] 0).2 =
      ((Queue.drain (fun _ => Queue.Transmit.resolvedNon2xx) [8] 1).2.1, 2) := by
  constructor
  · exact c2_queue_fifo_retry_on_rejection.2.1
      (fun _ => Queue.Transmit.rejected) 7 [8] 0 rfl
  · rw [(c2_queue_fifo_retry_on_rejection.2.2.1
      (fun _ => Queue.Transmit.resolvedNon2xx) 7 [8] 0 rfl).2]
    decide

/-- C9: a beacon-path transmission puts the API key into the `api_key` query
parameter of the track-event URL (no API-key header), types the body
`text/plain`, and is carried by the beacon primitive; when the primitive is
unavailable the payload goes through the queued `fetch` path (JSON body,
`x-api-key` header) instead. -/
theorem c9_beacon_query_key_text_plain (cfg : Tracker.Config) (et : String) :
    (Tracker.sendBeaconReq cfg true et).path =
        cfg.apiUrl ++ "/functions/v1/track-event" ∧
    (Tracker.sendBeaconReq cfg true et).queryParams = [("api_key", cfg.apiKey)] ∧
    (Tracker.sendBeaconReq cfg true et).apiKeyHeader = none ∧
    (Tracker.sendBeaconReq cfg true et).contentType = "text/plain" ∧
    (Tracker.sendBeaconReq cfg true et).isBeacon = true ∧
    Tracker.sendBeaconReq cfg false et = Tracker.sendEventReq cfg et ∧
    (Tracker.sendEventReq cfg et).apiKeyHeader = some cfg.apiKey ∧
    (Tracker.sendEventReq cfg et).contentType = "application/json" := by
  simp [Tracker.sendBeaconReq, Tracker.sendEventReq]

/-- C10: `setConsent(false)` purges the stored session and visitor data and
de-initializes the tracker from *every* prior state (even when consent was
never granted), while the consent-broadcast listener purges only on an
actual granted → not-granted transition: with consent not previously
granted, a `false` broadcast only records the flag and touches nothing
else. -/
theorem c10_setConsent_false_always_purges (s : ConsentTracker.CState)
    (now : Nat) (fS fV : String) :
    ((ConsentTracker.setConsent s false now fS fV).store.session = none ∧
      (ConsentTracker.setConsent s false now fS fV).store.visitor = none ∧
      (ConsentTracker.setConsent s false now fS fV).isInitialized = false ∧
      (ConsentTracker.setConsent s false now fS fV).consentGiven = false) ∧
    (s.consentGiven = false →
      ConsentTracker.onConsentUpdated s false now fS fV =
        { s with consentGiven := false }) ∧
    (s.consentGiven = true →
      (ConsentTracker.onConsentUpdated s false now fS fV).store.session = none ∧
      (ConsentTracker.onConsentUpdated s false now fS fV).store.visitor = none ∧
      (ConsentTracker.onConsentUpdated s false now fS fV).isInitialized = false) := by
  refine ⟨?_, ?_, ?_⟩
  · simp [ConsentTracker.setConsent, ConsentTracker.clearAllTrackingData]
  · intro h
    simp [ConsentTracker.onConsentUpdated, h]
  · intro h
    simp [ConsentTracker.onConsentUpdated, h, ConsentTracker.clearAllTrackingData]

/-- Witness for C10 at a concrete state: a tracker that never had consent
(`consentGiven = false`) still loses its stored data on `setConsent(false)`,
while the broadcast handler leaves that same state's storage untouched. -/
theorem c10_witness :
    (ConsentTracker.setConsent
        ⟨⟨some ⟨"sid", "vid", 0, 0, 4⟩, some "vid"⟩, false, false⟩
        false 100 "f" "g").store.session = none ∧
    (ConsentTracker.onConsentUpdated
        ⟨⟨some ⟨"sid", "vid", 0, 0, 4⟩, some "vid"⟩, false, false⟩
        false 100 "f" "g").store.session = some ⟨"sid", "vid", 0, 0, 4⟩ := by
  constructor
  · exact (c10_setConsent_false_always_purges
      ⟨⟨some ⟨"sid", "vid", 0, 0, 4⟩, some "vid"⟩, false, false⟩ 100 "f" "g").1.1
  · rw [(c10_setConsent_false_always_purges
      ⟨⟨some ⟨"sid", "vid", 0, 0, 4⟩, some "vid"⟩, false, false⟩ 100 "f" "g").2.1 rfl]

/-- C7: for a sequence of `getSessionId()` calls in which every call is within
`SESSION_TIMEOUT` (30 minutes) of the previous activity, every call returns
the initial session's id, and the stored `page_views` counter climbs by one
per call (`page_views + 1, page_views + 2, …` — in particular monotonically
non-decreasing across the sequence). -/
theorem c7_session_id_stable_page_views_monotone
    (calls : List (Nat × String)) (s : Session.SessionData)
    (h : List.Chain (fun a b => b - a ≤ Session.SESSION_TIMEOUT_MS)
      s.last_activity_at (calls.map Prod.fst)) :
    (Session.sessionTrace s calls).map Prod.fst =
      List.replicate calls.length s.session_id ∧
    (Session.sessionTrace s calls).map (fun p => p.2.page_views) =
      List.range' (s.page_views + 1) calls.length := by
  induction calls generalizing s with
  | nil => simp [Session.sessionTrace]
  | cons c rest ih =>
    obtain ⟨t, f⟩ := c
    simp only [List.map_cons, List.chain_cons] at h
    obtain ⟨h1, h2⟩ := h
    have hexp : Session.isSessionExpired s t = false := by
      simp [Session.isSessionExpired]
      omega
    have hs' : Session.getSessionId (some s) t f s.visitor_id =
        (s.session_id, Session.updateSessionActivity s t) := by
      simp [Session.getSessionId, hexp]
    have ih' := ih (Session.updateSessionActivity s t)
      (by simpa [Session.updateSessionActivity] using h2)
    simp only [Session.sessionTrace, hs', List.map_cons, List.length_cons,
      List.replicate_succ, List.range'_succ, Session.updateSessionActivity] at ih' ⊢
    exact ⟨by rw [ih'.1], by rw [ih'.2]⟩

/-- Witness for C7: three calls at 10, 20 and 25 minutes after the last
activity of a stored session all return its id, and `page_views` grows
`5, 6, 7`. -/
theorem c7_witness :
    (Session.sessionTrace ⟨"sid", "vid", 0, 0, 4⟩
        [(600000, "f1"), (1200000, "f2"), (1500000, "f3")]).map Prod.fst =
      ["sid", "sid", "sid"] ∧
    (Session.sessionTrace ⟨"sid", "vid", 0, 0, 4⟩
        [(600000, "f1"), (1200000, "f2"), (1500000, "f3")]).map
        (fun p => p.2.page_views) = [5, 6, 7] := by
  have h := c7_session_id_stable_page_views_monotone
    [(600000, "f1"), (1200000, "f2"), (1500000, "f3")] ⟨"sid", "vid", 0, 0, 4⟩
    (by simp [Session.SESSION_TIMEOUT_MS])
  constructor
  · rw [h.1]; rfl
  · rw [h.2]; rfl

/-- C8: `getVisitorId` never fails visibly (it is a total function of the
storage state — erroring primitives are caught).  When the storage read
throws it returns a fresh process-local UUID and persists nothing (the
store is unchanged); when a stored id exists it is returned unchanged; when
absent it is generated and persisted if the write succeeds, and when even
the write throws, a fresh unpersisted UUID is returned. -/
theorem c8_getVisitorId_total_degrades (st : Session.Store) (f1 f2 : String) :
    (st.readFails = true → Session.getVisitorId st f1 f2 = (f2, st)) ∧
    (st.readFails = false → ∀ v, st.visitor = some v →
      Session.getVisitorId st f1 f2 = (v, st)) ∧
    (st.readFails = false → st.visitor = none → st.writeFails = false →
      Session.getVisitorId st f1 f2 = (f1, { st with visitor := some f1 })) ∧
    (st.readFails = false → st.visitor = none → st.writeFails = true →
      Session.getVisitorId st f1 f2 = (f2, st)) := by
  obtain ⟨v, rf, wf⟩ := st
  refine ⟨?_, ?_, ?_, ?_⟩ <;> cases rf <;> cases wf <;> cases v <;>
    simp [Session.getVisitorId, Session.getVisitorIdAttempt, Session.getItemVisitor,
      Session.setItemVisitor, Bind.bind, Except.bind, Pure.pure, Except.pure]

/-- Witness for C8: with storage reads throwing, `getVisitorId` returns the
fresh UUID and leaves the (empty) store untouched; with a stored id and
working storage it returns the stored id. -/
theorem c8_witness :
    Session.getVisitorId ⟨none, true, false⟩ "u1" "u2" = ("u2", ⟨none, true, false⟩) ∧
    Session.getVisitorId ⟨some "vid", false, false⟩ "u1" "u2" =
      ("vid", ⟨some "vid", false, false⟩) := by
  constructor
  · exact (c8_getVisitorId_total_degrades ⟨none, true, false⟩ "u1" "u2").1 rfl
  · exact (c8_getVisitorId_total_degrades ⟨some "vid", false, false⟩ "u1" "u2").2.1 rfl "vid" rfl

/-- `Math.floor(ms / 1000) < k` is `ms < k * 1000` on naturals. -/
theorem Nat.div1000_lt_iff (d k : Nat) : d / 1000 < k ↔ d < k * 1000 :=
  Nat.div_lt_iff_lt_mul (by norm_num)

/-- C5: with tracking enabled and the respective start timestamp set, a
page-exit beacon is emitted iff at least 3000 ms elapsed, a property-view
duration beacon is emitted (exactly one) iff at least 3000 ms elapsed, and a
blog read-duration beacon is emitted (exactly one) iff at least 5000 ms
elapsed — so a 2.9 s view yields nothing and a 3.1 s view yields exactly
one event. -/
theorem c5_dwell_time_thresholds (s : Tracker.State) (now : Nat) (b : Bool)
    (hen : s.config.trackingEnabled = true) :
    (s.pageLoadTime ≠ 0 →
      (Tracker.trackPageExit s now b ≠ [] ↔ 3000 ≤ now - s.pageLoadTime)) ∧
    (s.propertyViewStartTime ≠ 0 →
      (Tracker.trackPropertyDuration s now b).2.length =
        if 3000 ≤ now - s.propertyViewStartTime then 1 else 0) ∧
    (s.blogViewStartTime ≠ 0 →
      (Tracker.trackBlogDuration s now b).2.length =
        if 5000 ≤ now - s.blogViewStartTime then 1 else 0) := by
  refine ⟨?_, ?_, ?_⟩
  · intro h
    by_cases hd : now - s.pageLoadTime < 3000
    · have : (now - s.pageLoadTime) / 1000 < 3 := (Nat.div1000_lt_iff _ 3).mpr hd
      simp [Tracker.trackPageExit, hen, h, this]
      omega
    · have : ¬ (now - s.pageLoadTime) / 1000 < 3 := by
        rw [Nat.div1000_lt_iff]; omega
      simp [Tracker.trackPageExit, hen, h, this]
      omega
  · intro h
    by_cases hd : now - s.propertyViewStartTime < 3000
    · have hdiv : (now - s.propertyViewStartTime) / 1000 < 3 := (Nat.div1000_lt_iff _ 3).mpr hd
      rw [if_neg (by omega)]
      simp [Tracker.trackPropertyDuration, hen, h, hdiv]
    · have hdiv : ¬ (now - s.propertyViewStartTime) / 1000 < 3 := by
        rw [Nat.div1000_lt_iff]; omega
      rw [if_pos (by omega)]
      simp [Tracker.trackPropertyDuration, hen, h, hdiv]
  · intro h
    by_cases hd : now - s.blogViewStartTime < 5000
    · have hdiv : (now - s.blogViewStartTime) / 1000 < 5 := (Nat.div1000_lt_iff _ 5).mpr hd
      rw [if_neg (by omega)]
      simp [Tracker.trackBlogDuration, hen, h, hdiv]
    · have hdiv : ¬ (now - s.blogViewStartTime) / 1000 < 5 := by
        rw [Nat.div1000_lt_iff]; omega
      rw [if_pos (by omega)]
      simp [Tracker.trackBlogDuration, hen, h, hdiv]

/-- Witness for C5: with all start timestamps at 1000 ms, a property view
checked at 3900 ms (2.9 s elapsed) emits nothing and at 4100 ms (3.1 s)
emits exactly one event; a blog read checked at 5900 ms (4.9 s elapsed) emits nothing and at
6100 ms (5.1 s) emits exactly one; a page exit at 3.1 s emits. -/
theorem c5_witness :
    (Tracker.trackPropertyDuration
        ⟨⟨"u", "k", true⟩, true, true, 1000, 1000, 1000, 0⟩ 3900 true).2.length = 0 ∧
    (Tracker.trackPropertyDuration
        ⟨⟨"u", "k", true⟩, true, true, 1000, 1000, 1000, 0⟩ 4100 true).2.length = 1 ∧
    (Tracker.trackBlogDuration
        ⟨⟨"u", "k", true⟩, true, true, 1000, 1000, 1000, 0⟩ 5900 true).2.length = 0 ∧
    (Tracker.trackBlogDuration
        ⟨⟨"u", "k", true⟩, true, true, 1000, 1000, 1000, 0⟩ 6100 true).2.length = 1 ∧
    Tracker.trackPageExit
        ⟨⟨"u", "k", true⟩, true, true, 1000, 1000, 1000, 0⟩ 4100 true ≠ [] := by
  refine ⟨?_, ?_, ?_, ?_, ?_⟩
  · rw [(c5_dwell_time_thresholds
      ⟨⟨"u", "k", true⟩, true, true, 1000, 1000, 1000, 0⟩ 3900 true rfl).2.1
      (by decide)]
    decide
  · rw [(c5_dwell_time_thresholds
      ⟨⟨"u", "k", true⟩, true, true, 1000, 1000, 1000, 0⟩ 4100 true rfl).2.1
      (by decide)]
    decide
  · rw [(c5_dwell_time_thresholds
      ⟨⟨"u", "k", true⟩, true, true, 1000, 1000, 1000, 0⟩ 5900 true rfl).2.2
      (by decide)]
    decide
  · rw [(c5_dwell_time_thresholds
      ⟨⟨"u", "k", true⟩, true, true, 1000, 1000, 1000, 0⟩ 6100 true rfl).2.2
      (by decide)]
    decide
  · exact ((c5_dwell_time_thresholds
      ⟨⟨"u", "k", true⟩, true, true, 1000, 1000, 1000, 0⟩ 4100 true rfl).1
      (by decide)).mpr (by decide)

/-- C6 counterexample: with tracking allowed and the property currently
favourited (last known state `true`), a thrown network error on the POST
makes `toggleFavourite` return `false` — not the last known state, which
was `true`. -/
theorem c6_counterexample :
    (Tracker.toggleFavourite ⟨⟨"u", "k", true⟩, true, true, 0, 0, 0, 0⟩
        true Tracker.PostOutcome.netError).1 = false ∧
    (false : Bool) ≠ true := by
  decide

/-- C6 as amended: `toggleFavourite` fetches the current state, POSTs the
intended flip (`unfavourite` when currently favourited, `favourite`
otherwise) and on success returns the server's `is_favourited` field; on a
non-2xx response it returns the previously fetched current state; but on a
*thrown* network error the catch block returns `false` regardless of the
last known state.  When tracking is not allowed nothing is sent and `false`
is returned. -/
theorem c6_toggle_favourite_amended (s : Tracker.State) :
    (Tracker.canTrack s = true → ∀ current srv : Bool,
      (Tracker.toggleFavourite s current (.ok srv)).1 = srv ∧
      (Tracker.toggleFavourite s current (.ok srv)).2.1 =
        some (if current then "unfavourite" else "favourite") ∧
      (Tracker.toggleFavourite s current .httpError).1 = current ∧
      (Tracker.toggleFavourite s current .httpError).2.2 = [] ∧
      (Tracker.toggleFavourite s current .netError).1 = false ∧
      (Tracker.toggleFavourite s current .netError).2.2 = []) ∧
    (Tracker.canTrack s = false → ∀ current outcome,
      Tracker.toggleFavourite s current outcome = (false, none, [])) := by
  constructor
  · intro h current srv
    refine ⟨?_, ?_, ?_, ?_, ?_, ?_⟩ <;> simp [Tracker.toggleFavourite, h]
  · intro h current outcome
    simp [Tracker.toggleFavourite, h]

/-- Witness for C6 (amended): concrete runs — server says `true` on success;
a non-2xx keeps the fetched `true`; a network error collapses to `false`;
without consent nothing happens. -/
theorem c6_witness :
    (Tracker.toggleFavourite ⟨⟨"u", "k", true⟩, true, true, 0, 0, 0, 0⟩
        false (.ok true)).1 = true ∧
    (Tracker.toggleFavourite ⟨⟨"u", "k", true⟩, true, true, 0, 0, 0, 0⟩
        true .httpError).1 = true ∧
    Tracker.toggleFavourite ⟨⟨"u", "k", true⟩, false, true, 0, 0, 0, 0⟩
        true .httpError = (false, none, []) := by
  refine ⟨?_, ?_, ?_⟩
  · exact ((c6_toggle_favourite_amended
      ⟨⟨"u", "k", true⟩, true, true, 0, 0, 0, 0⟩).1 rfl false true).1
  · exact ((c6_toggle_favourite_amended
      ⟨⟨"u", "k", true⟩, true, true, 0, 0, 0, 0⟩).1 rfl true true).2.2.1
  · exact (c6_toggle_favourite_amended
      ⟨⟨"u", "k", true⟩, false, true, 0, 0, 0, 0⟩).2 rfl true .httpError

/-- C4 counterexample: a property page with duration tracking set up at
1000 ms receives two teardown signals (e.g. `visibilitychange→hidden` at
6000 ms, then `pagehide` at 7000 ms, both past the 3 s threshold) — the
shared handler sends a duration beacon *both* times, not exactly once. -/
theorem c4_counterexample :
    (Tracker.propertyDurationSignals
        ⟨⟨"u", "k", true⟩, true, true, 1000, 1000, 0, 0⟩ true
        [6000, 7000]).2.length = 2 ∧
    ¬ (Tracker.propertyDurationSignals
        ⟨⟨"u", "k", true⟩, true, true, 1000, 1000, 0, 0⟩ true
        [6000, 7000]).2.length = 1 := by
  decide

/-- One teardown handler run leaves the state unchanged and emits one beacon
exactly when the guard and threshold pass — there is no already-reported
flag. -/
theorem trackPropertyDuration_signal_eq (s : Tracker.State) (t : Nat) (b : Bool)
    (hen : s.config.trackingEnabled = true) (hst : s.propertyViewStartTime ≠ 0) :
    Tracker.trackPropertyDuration s t b =
      (s, if 3000 ≤ t - s.propertyViewStartTime
          then [Tracker.sendBeaconReq s.config b "property_view"] else []) := by
  by_cases hd : t - s.propertyViewStartTime < 3000
  · have hdiv : (t - s.propertyViewStartTime) / 1000 < 3 := (Nat.div1000_lt_iff _ 3).mpr hd
    rw [if_neg (by omega)]
    simp [Tracker.trackPropertyDuration, hen, hst, hdiv]
  · have hdiv : ¬ (t - s.propertyViewStartTime) / 1000 < 3 := by
      rw [Nat.div1000_lt_iff]; omega
    rw [if_pos (by omega)]
    simp [Tracker.trackPropertyDuration, hen, hst, hdiv]

/-- Blog counterpart of `trackPropertyDuration_signal_eq` (5 s threshold). -/
theorem trackBlogDuration_signal_eq (s : Tracker.State) (t : Nat) (b : Bool)
    (hen : s.config.trackingEnabled = true) (hst : s.blogViewStartTime ≠ 0) :
    Tracker.trackBlogDuration s t b =
      (s, if 5000 ≤ t - s.blogViewStartTime
          then [Tracker.sendBeaconReq s.config b "blog_read_time"] else []) := by
  by_cases hd : t - s.blogViewStartTime < 5000
  · have hdiv : (t - s.blogViewStartTime) / 1000 < 5 := (Nat.div1000_lt_iff _ 5).mpr hd
    rw [if_neg (by omega)]
    simp [Tracker.trackBlogDuration, hen, hst, hdiv]
  · have hdiv : ¬ (t - s.blogViewStartTime) / 1000 < 5 := by
      rw [Nat.div1000_lt_iff]; omega
    rw [if_pos (by omega)]
    simp [Tracker.trackBlogDuration, hen, hst, hdiv]

/-- C4 as amended: the three teardown listeners (`beforeunload`, `pagehide`,
`visibilitychange→hidden`) all run the same duration handler, but the
handler is *not* idempotent — nothing records that a report was already
sent, and the view start time is never cleared.  Every teardown signal
whose elapsed time meets the threshold (3 s for property, 5 s for blog)
sends its own duration beacon: `n` qualifying signals produce `n` reports,
and the tracker state is unchanged throughout. -/
theorem c4_duration_reported_once_per_signal (s : Tracker.State)
    (ts : List Nat) (b : Bool) (hen : s.config.trackingEnabled = true) :
    (s.propertyViewStartTime ≠ 0 →
      (Tracker.propertyDurationSignals s b ts).1 = s ∧
      (Tracker.propertyDurationSignals s b ts).2.length =
        (ts.filter (fun t => 3000 ≤ t - s.propertyViewStartTime)).length) ∧
    (s.blogViewStartTime ≠ 0 →
      (Tracker.blogDurationSignals s b ts).1 = s ∧
      (Tracker.blogDurationSignals s b ts).2.length =
        (ts.filter (fun t => 5000 ≤ t - s.blogViewStartTime)).length) := by
  constructor
  · intro hst
    induction ts with
    | nil => simp [Tracker.propertyDurationSignals]
    | cons t ts ih =>
      simp only [Tracker.propertyDurationSignals,
        trackPropertyDuration_signal_eq s t b hen hst, List.filter_cons]
      by_cases hq : 3000 ≤ t - s.propertyViewStartTime
      · simp [hq, ih.1, ih.2]
      · simp [hq, ih.1, ih.2]
  · intro hst
    induction ts with
    | nil => simp [Tracker.blogDurationSignals]
    | cons t ts ih =>
      simp only [Tracker.blogDurationSignals,
        trackBlogDuration_signal_eq s t b hen hst, List.filter_cons]
      by_cases hq : 5000 ≤ t - s.blogViewStartTime
      · simp [hq, ih.1, ih.2]
      · simp [hq, ih.1, ih.2]

/-- Witness for C4 (amended): two qualifying teardown signals at 6000 and
7000 ms on a property view started at 1000 ms produce two duration beacons. -/
theorem c4_witness :
    (Tracker.propertyDurationSignals
        ⟨⟨"u", "k", true⟩, true, true, 1000, 1000, 0, 0⟩ true
        [6000, 7000]).2.length =
      ([6000, 7000].filter (fun t => 3000 ≤ t - 1000)).length := by
  exact ((c4_duration_reported_once_per_signal
    ⟨⟨"u", "k", true⟩, true, true, 1000, 1000, 0, 0⟩ [6000, 7000] true rfl).1
    (by decide)).2

/-- Invariant of the `trackScroll` handler runs: the fired milestones are
strictly increasing, and each one exceeds the starting maximum and is one
of the four milestones. -/
theorem scrollRun_invariant (ps : List Nat) (d : Nat) :
    List.Chain' (· < ·) (Tracker.scrollRun d ps).2 ∧
    ∀ m ∈ (Tracker.scrollRun d ps).2, d < m ∧ m ∈ Tracker.milestones := by
  induction ps generalizing d with
  | nil => simp [Tracker.scrollRun]
  | cons p ps ih =>
    cases hf : Tracker.milestones.find? (fun m => decide (p ≥ m) && decide (d < m)) with
    | none =>
      by_cases hpd : p > d
      · have hrun : (Tracker.scrollRun d (p :: ps)).2 = (Tracker.scrollRun p ps).2 := by
          simp [Tracker.scrollRun, Tracker.scrollStep, hf, hpd]
        rw [hrun]
        refine ⟨(ih p).1, fun m hm => ?_⟩
        have h2 := (ih p).2 m hm
        exact ⟨lt_trans hpd h2.1, h2.2⟩
      · have hrun : (Tracker.scrollRun d (p :: ps)).2 = (Tracker.scrollRun d ps).2 := by
          simp [Tracker.scrollRun, Tracker.scrollStep, hf, hpd]
        rw [hrun]
        exact ih d
    | some m =>
      have hpred := List.find?_some hf
      have hmem := List.mem_of_find?_eq_some hf
      simp only [Bool.and_eq_true, decide_eq_true_eq, ge_iff_le] at hpred
      have hpd : p > d := lt_of_lt_of_le hpred.2 hpred.1
      have hrun : (Tracker.scrollRun d (p :: ps)).2 = m :: (Tracker.scrollRun p ps).2 := by
        simp [Tracker.scrollRun, Tracker.scrollStep, hf, hpd]
      rw [hrun]
      constructor
      · rw [List.chain'_cons']
        refine ⟨fun b hb => ?_, (ih p).1⟩
        have hbmem : b ∈ (Tracker.scrollRun p ps).2 := List.mem_of_mem_head? hb
        have := (ih p).2 b hbmem
        omega
      · intro x hx
        rcases List.mem_cons.mp hx with rfl | hx'
        · exact ⟨hpred.2, hmem⟩
        · have := (ih p).2 x hx'
          exact ⟨by omega, this.2⟩

/-- C3 counterexample: for scroll events at 80 %, then 30 %, then 90 %, the
handler fires only milestone 25 (at the 80 % pass) — milestones 50 and 75
never fire, because the handler fires a single milestone per event and then
raises `maxScrollDepth` to 80, past them for good.  The claim's "25, 50 and
75 each fire exactly once" fails. -/
theorem c3_counterexample :
    (Tracker.scrollRun 0 [80, 30, 90]).2 = [25] ∧
    ¬ ((Tracker.scrollRun 0 [80, 30, 90]).2.count 50 = 1 ∧
       (Tracker.scrollRun 0 [80, 30, 90]).2.count 75 = 1) := by
  decide

/-- C3 as amended: each milestone fires at most once per page (the fired
list has no duplicates — it is strictly increasing), each fired value is
one of 25/50/75/100 and strictly exceeds the running maximum at the time,
and a scroll event that does not exceed the running maximum (scroll-up or
no progress) changes nothing and fires nothing.  A single event fires at
most the lowest newly crossed milestone, so milestones jumped over in one
event are skipped permanently: the sequence 80, 30, 90 fires only 25 and
never 100 (90 % < 100 %), while a sequence crossing the milestones one at
a time — 25, 50, 75, 80, 30, 90 — fires 25, 50, 75 once each and 100
never. -/
theorem c3_scroll_milestones_amended :
    (∀ (d : Nat) (ps : List Nat),
        (Tracker.scrollRun d ps).2.Nodup ∧
        List.Chain' (· < ·) (Tracker.scrollRun d ps).2 ∧
        ∀ m ∈ (Tracker.scrollRun d ps).2, d < m ∧ m ∈ Tracker.milestones) ∧
    (∀ d p, p ≤ d → Tracker.scrollStep d p = (d, none)) ∧
    (Tracker.scrollRun 0 [80, 30, 90]).2 = [25] ∧
    (Tracker.scrollRun 0 [25, 50, 75, 80, 30, 90]).2 = [25, 50, 75] := by
  refine ⟨fun d ps => ?_, fun d p h => ?_, by decide, by decide⟩
  · have h := scrollRun_invariant ps d
    have hpw : (Tracker.scrollRun d ps).2.Pairwise (· < ·) :=
      List.chain'_iff_pairwise.mp h.1
    exact ⟨hpw.imp (fun hab => Nat.ne_of_lt hab), h.1, h.2⟩
  · have hf : Tracker.milestones.find?
        (fun m => decide (p ≥ m) && decide (d < m)) = none := by
      apply List.find?_eq_none.mpr
      intro x _
      simp only [Bool.and_eq_true, decide_eq_true_eq, ge_iff_le, not_and]
      omega
    simp [Tracker.scrollStep, hf, show ¬ p > d by omega]

/-- Witness for C3 (amended): scrolling back up from 80 % to 30 % changes
nothing and fires nothing, and the one-at-a-time crossing sequence fires a
duplicate-free `[25, 50, 75]`. -/
theorem c3_witness :
    Tracker.scrollStep 80 30 = (80, none) ∧
    (Tracker.scrollRun 0 [25, 50, 75, 80, 30, 90]).2.Nodup := by
  constructor
  · exact c3_scroll_milestones_amended.2.1 80 30 (by decide)
  · exact (c3_scroll_milestones_amended.1 0 [25, 50, 75, 80, 30, 90]).1

/-- C1: evaluation at the failing input.  A tracker whose consent gate is
closed (`canTrack() = false` because `consentGiven = false`, with
`trackingEnabled = true` and start timestamps set from an earlier consented
period): `trackSearch` still sends a `search` beacon (neither it nor
`sendBeacon` checks `canTrack()`), `trackPageExit` and the duration
handlers still send beacons (they check only `trackingEnabled` and the
timestamp), and this also holds on the fallback `fetch` path when the
beacon primitive is missing — while the gated operations (`trackEvent`,
`trackPageView`, `trackPropertyView`, `toggleFavourite`) correctly do
nothing. -/
theorem c1_consent_gate_bypassed_eval :
    Tracker.canTrack ⟨⟨"u", "k", true⟩, false, false, 1000, 1000, 1000, 0⟩ = false ∧
    (Tracker.trackSearch ⟨⟨"u", "k", true⟩, false, false, 1000, 1000, 1000, 0⟩
        true).length = 1 ∧
    (Tracker.trackSearch ⟨⟨"u", "k", true⟩, false, false, 1000, 1000, 1000, 0⟩
        false).length = 1 ∧
    (Tracker.trackPageExit ⟨⟨"u", "k", true⟩, false, false, 1000, 1000, 1000, 0⟩
        9000 true).length = 1 ∧
    (Tracker.trackPropertyDuration
        ⟨⟨"u", "k", true⟩, false, false, 1000, 1000, 1000, 0⟩ 9000 true).2.length = 1 ∧
    (Tracker.trackBlogDuration
        ⟨⟨"u", "k", true⟩, false, false, 1000, 1000, 1000, 0⟩ 9000 true).2.length = 1 ∧
    Tracker.trackEvent ⟨⟨"u", "k", true⟩, false, false, 1000, 1000, 1000, 0⟩ "x" = [] ∧
    Tracker.trackPageView ⟨⟨"u", "k", true⟩, false, false, 1000, 1000, 1000, 0⟩ = [] ∧
    (Tracker.trackPropertyView
        ⟨⟨"u", "k", true⟩, false, false, 1000, 1000, 1000, 0⟩ 9000).2 = [] ∧
    Tracker.toggleFavourite ⟨⟨"u", "k", true⟩, false, false, 1000, 1000, 1000, 0⟩
        true (.ok true) = (false, none, []) := by
  decide
